import Mathlib

/-!
Shallow embedding of the wasm C API object layer implemented in
`lib/api/wasm_c.cpp`, together with theorems settling the specification
claims about it.

Modelling conventions:
* C pointers are machine addresses (`Ptr := Nat`); a nullable pointer is an
  `Option`.  A pointer argument that is dereferenced is usually modelled by
  the pointee value itself (`Option <struct>`), since the functions here
  never depend on pointer identity except in the cast functions (which are
  modelled at the address level).
* A C function that can run into undefined behavior (a null or dangling
  dereference, or `__builtin_unreachable()`) returns `CResult`, whose `ub`
  constructor marks exactly those executions.  Allocation is assumed to
  succeed (`new (std::nothrow)` never returns null in this model), so a
  constructor that completes returns `.ok`.
* Out-parameters are modelled by passing the pre-state of the pointee and
  returning its post-state.
* The enumeration encodings are the ones fixed by the included `wasm.h`
  header (part of the wire contract per the spec): `WASM_I32..WASM_F64` are
  0..3, `WASM_ANYREF` is 128, `WASM_FUNCREF` is 129, mutability and extern
  kinds count from 0.
-/

namespace WasmC

/-- Machine address: the model of a C pointer value.  Address arithmetic is
never used; addresses only name heap objects. -/
abbrev Ptr := Nat

/-- Encoding of `WASM_I32` from the `wasm.h` enumeration. -/
def WASM_I32 : Nat := 0

/-- Encoding of `WASM_I64`. -/
def WASM_I64 : Nat := 1

/-- Encoding of `WASM_F32`. -/
def WASM_F32 : Nat := 2

/-- Encoding of `WASM_F64`. -/
def WASM_F64 : Nat := 3

/-- Encoding of `WASM_ANYREF`. -/
def WASM_ANYREF : Nat := 128

/-- Encoding of `WASM_FUNCREF`. -/
def WASM_FUNCREF : Nat := 129

/-- Encoding of `WASM_CONST`. -/
def WASM_CONST : Nat := 0

/-- Encoding of `WASM_VAR`. -/
def WASM_VAR : Nat := 1

/-- Encoding of `WASM_EXTERN_FUNC`. -/
def WASM_EXTERN_FUNC : Nat := 0

/-- Encoding of `WASM_EXTERN_GLOBAL`. -/
def WASM_EXTERN_GLOBAL : Nat := 1

/-- Encoding of `WASM_EXTERN_TABLE`. -/
def WASM_EXTERN_TABLE : Nat := 2

/-- Encoding of `WASM_EXTERN_MEMORY`. -/
def WASM_EXTERN_MEMORY : Nat := 3

/-- Result of running a piece of C code: either a defined result or
undefined behavior (`ub`), which models a null/dangling dereference, a
double free, or reaching `__builtin_unreachable()`. -/
inductive CResult (α : Type) where
  | ok : α → CResult α
  | ub : CResult α
deriving DecidableEq, Repr

/-- The `wasm_<name>_vec_t` struct: a `size` field and a `data` buffer
pointer.  `data = none` models a null buffer; `data = some l` models a
buffer holding the elements `l`. -/
structure Vec (α : Type) where
  size : Nat
  data : Option (List α)
deriving DecidableEq, Repr

/-- The `wasm_<name>_vec_new_empty` function from
`WASM_DECLARE_VEC_COMMON_IMPL`: when `out` is non-null, store size 0 and a
null data pointer; a null `out` is a no-op. -/
def vec_new_empty (out : Option (Vec α)) : Option (Vec α) :=
  match out with
  | none => none
  | some _ => some ⟨0, none⟩

/-- The `wasm_<name>_vec_new_uninitialized` function from
`WASM_DECLARE_VEC_COMMON_IMPL`: `out->size = size`, `out->data = nullptr`,
and when `size > 0` a zeroed buffer of `size` slots is allocated (the
`memset` yields `size` copies of the zero element `z`; for a pointer vector
`z` is the null pointer). -/
def vec_new_uninitialized (z : α) (out : Option (Vec α)) (size : Nat) :
    Option (Vec α) :=
  match out with
  | none => none
  | some _ => some ⟨size, if size > 0 then some (List.replicate size z) else none⟩

/-- The `wasm_<name>_vec_new` function from `WASM_DECLARE_VEC_COMMON_IMPL`.
The result pairs the post-state of `*out` with the post-state of the
source array `vals`.  The source copy is
`std::copy_n(std::make_move_iterator(vals), size, out->data)`; the element
types of every instantiation are trivially copyable (raw pointers or flat
scalar structs) and the parameter is declared `T ptr_or_none const vals[]`
(an array of const elements), so the move degenerates to a plain copy and
the caller array is left unchanged — hence the second component is `vals`
itself. -/
def vec_new (out : Option (Vec α)) (size : Nat) (vals : List α) :
    Option (Vec α) × List α :=
  match out with
  | none => (none, vals)
  | some _ =>
      (some ⟨size, if size > 0 then some (vals.take size) else none⟩, vals)

/-- The `wasm_<name>_vec_copy` function from `WASM_DECLARE_VEC_PTR_IMPL`:
guarded by `if (in && out)`; sets `out->size = in->size` and
`out->data = nullptr`, then when `in->size > 0` allocates a buffer and fills
slot `i` with `wasm_<name>_copy(in->data[i])` (`copyElem`).  The element
reads assume a well-formed source (`in->data` holding at least `in->size`
elements); the theorems only use sources in that domain. -/
def vec_copy_ptr (copyElem : α → α) (out inp : Option (Vec α)) :
    Option (Vec α) :=
  match out, inp with
  | some _, some i =>
      some ⟨i.size,
        if i.size > 0 then some (((i.data.getD []).take i.size).map copyElem)
        else none⟩
  | o, _ => o

/-- The `wasm_<name>_vec_copy` function from `WASM_DECLARE_VEC_SCALAR_IMPL`:
guarded by `if (in && out)`; sets `out->size = in->size`, and only when
`in->size > 0` allocates a buffer and copies the elements.  When
`in->size == 0` the statement `out->data = ...` is never executed, so the
`data` field of `*out` keeps its previous value — the scalar macro, unlike
the pointer macro, has no unconditional `out->data = nullptr;` line. -/
def vec_copy_scalar (out inp : Option (Vec α)) : Option (Vec α) :=
  match out, inp with
  | some o, some i =>
      if i.size > 0 then some ⟨i.size, some ((i.data.getD []).take i.size)⟩
      else some ⟨i.size, o.data⟩
  | o, _ => o

/-- The `wasm_<name>_vec_delete` function (both macro flavors): a null `vec`
is a no-op; otherwise the buffer (and, for pointer vectors, each element)
is released only under the `vec->size > 0` guard, and the struct is reset
to size 0 and null data.  At the level of the vector state both flavors
produce the same reset struct. -/
def vec_delete (v : Option (Vec α)) : Option (Vec α) :=
  match v with
  | none => none
  | some _ => some ⟨0, none⟩

/-- The `wasm_valtype_t` struct: a bare value-kind descriptor. -/
structure wasm_valtype_t where
  kind : Nat
deriving DecidableEq, Repr

/-- The `wasm_valtype_copy` function (`WASM_DECLARE_COPY_IMPL`): null in,
null out; otherwise `new wasm_valtype_t(this)`, duplicating the kind. -/
def wasm_valtype_copy (vt : Option wasm_valtype_t) : Option wasm_valtype_t :=
  match vt with
  | none => none
  | some v => some ⟨v.kind⟩

/-- The `wasm_byte_vec_new_empty` instance of the scalar vector macro
(bytes modelled as `Nat`). -/
def wasm_byte_vec_new_empty : Option (Vec Nat) → Option (Vec Nat) :=
  vec_new_empty

/-- The `wasm_byte_vec_new_uninitialized` instance (zero byte = 0). -/
def wasm_byte_vec_new_uninitialized : Option (Vec Nat) → Nat → Option (Vec Nat) :=
  vec_new_uninitialized 0

/-- The `wasm_byte_vec_new` instance. -/
def wasm_byte_vec_new : Option (Vec Nat) → Nat → List Nat →
    Option (Vec Nat) × List Nat :=
  vec_new

/-- The `wasm_byte_vec_copy` instance of the scalar copy. -/
def wasm_byte_vec_copy : Option (Vec Nat) → Option (Vec Nat) → Option (Vec Nat) :=
  vec_copy_scalar

/-- The `wasm_byte_vec_delete` instance. -/
def wasm_byte_vec_delete : Option (Vec Nat) → Option (Vec Nat) :=
  vec_delete

/-- The `wasm_valtype_vec_new_empty` instance of the pointer vector macro
(elements are nullable pointers to `wasm_valtype_t`). -/
def wasm_valtype_vec_new_empty :
    Option (Vec (Option wasm_valtype_t)) → Option (Vec (Option wasm_valtype_t)) :=
  vec_new_empty

/-- The `wasm_valtype_vec_new_uninitialized` instance (zero slot = null
pointer). -/
def wasm_valtype_vec_new_uninitialized :
    Option (Vec (Option wasm_valtype_t)) → Nat → Option (Vec (Option wasm_valtype_t)) :=
  vec_new_uninitialized none

/-- The `wasm_valtype_vec_new` instance. -/
def wasm_valtype_vec_new :
    Option (Vec (Option wasm_valtype_t)) → Nat → List (Option wasm_valtype_t) →
    Option (Vec (Option wasm_valtype_t)) × List (Option wasm_valtype_t) :=
  vec_new

/-- The `wasm_valtype_vec_copy` instance of the pointer copy, whose element
copy is `wasm_valtype_copy`. -/
def wasm_valtype_vec_copy :
    Option (Vec (Option wasm_valtype_t)) → Option (Vec (Option wasm_valtype_t)) →
    Option (Vec (Option wasm_valtype_t)) :=
  vec_copy_ptr wasm_valtype_copy

/-- The `wasm_valtype_vec_delete` instance. -/
def wasm_valtype_vec_delete :
    Option (Vec (Option wasm_valtype_t)) → Option (Vec (Option wasm_valtype_t)) :=
  vec_delete

/-- Allocator state for one family of heap handles: the set of currently
live addresses. -/
structure Heap where
  live : List Ptr
deriving DecidableEq, Repr

/-- The `wasm_<name>_delete` functions generated by `WASM_DECLARE_OWN_IMPL`
(config, engine, store, valtype, functype, ...): `if (obj) obj->destroy()`
where `destroy` is `delete this`.  Deleting null is a no-op; deleting a live
address frees it; deleting an address that is not live (already freed) is a
double free, i.e. undefined behavior (`none`). -/
def wasm_own_delete (h : Heap) (p : Option Ptr) : Option Heap :=
  match p with
  | none => some h
  | some a => if a ∈ h.live then some ⟨h.live.filter (fun x => x != a)⟩ else none

/-- The `wasm_config_t` struct: it owns a `WasmEdge::Configure` snapshot,
modelled as an opaque value. -/
structure wasm_config_t where
  conf : Nat
deriving DecidableEq, Repr

/-- The `wasm_engine_t` struct: a `Configure` snapshot plus the excluded
interpreter built from it (the interpreter carries no observable state of
its own in this layer and is not modelled). -/
structure wasm_engine_t where
  conf : Nat
deriving DecidableEq, Repr

/-- The `wasm_store_t` struct: the excluded loader/validator/store-manager
components plus the non-owning `engine` back pointer stored by the
constructor. -/
structure wasm_store_t where
  engine : Ptr
deriving DecidableEq, Repr

/-- The `wasm_config_new` function: allocates a default configuration. -/
def wasm_config_new : CResult wasm_config_t :=
  .ok ⟨0⟩

/-- The `wasm_engine_new` function: default-constructs the engine. -/
def wasm_engine_new : CResult wasm_engine_t :=
  .ok ⟨0⟩

/-- The `wasm_engine_new_with_config` function: runs
`wasm_engine_t(conf)`, whose initializer list reads `c->conf` — a null
`conf` is dereferenced with no prior check, which is undefined behavior —
then frees the taken configuration with `wasm_config_delete(conf)`. -/
def wasm_engine_new_with_config (conf : Option wasm_config_t) :
    CResult wasm_engine_t :=
  match conf with
  | none => .ub
  | some c => .ok ⟨c.conf⟩

/-- The `wasm_store_new` function: `if (engine) return new wasm_store_t(engine);
return nullptr;`.  The constructor reads `e->conf` to build the loader and
validator, so the engine address must be live; the engine heap is returned
unchanged (the store borrows the engine, it neither frees nor copies it),
and the store records the engine address. -/
def wasm_store_new (h : Heap) (engine : Option Ptr) :
    CResult (Heap × Option wasm_store_t) :=
  match engine with
  | none => .ok (h, none)
  | some e => if e ∈ h.live then .ok (h, some ⟨e⟩) else .ub

/-- The `wasm_valtype_new` function: allocates a descriptor holding the
given kind. -/
def wasm_valtype_new (kind : Nat) : Option wasm_valtype_t :=
  some ⟨kind⟩

/-- The `wasm_valtype_kind` accessor: `WASM_STRUCT_GET_ATTR(valtype, kind,
WASM_I32, )` — a null receiver yields the documented default `WASM_I32`. -/
def wasm_valtype_kind (vt : Option wasm_valtype_t) : Nat :=
  match vt with
  | none => WASM_I32
  | some v => v.kind

/-- The `wasm_functype_t` struct: the extern kind discriminant
`WASM_EXTERN_FUNC` plus two owned valtype vectors.  Only the payload is
carried here; the discriminant is handled by the `wasm_externtype_t`
model below. -/
structure wasm_functype_t where
  params : Vec (Option wasm_valtype_t)
  results : Vec (Option wasm_valtype_t)
deriving DecidableEq, Repr

/-- The `wasm_globaltype_t` struct: an inline `wasm_valtype_t` content and
a mutability. -/
structure wasm_globaltype_t where
  content : wasm_valtype_t
  mutability : Nat
deriving DecidableEq, Repr

/-- The `wasm_limits_t` struct. -/
structure wasm_limits_t where
  min : Nat
  max : Nat
deriving DecidableEq, Repr

/-- The `wasm_tabletype_t` struct: an inline element valtype and limits. -/
structure wasm_tabletype_t where
  valtype : wasm_valtype_t
  limits : wasm_limits_t
deriving DecidableEq, Repr

/-- The `wasm_memorytype_t` struct: limits only. -/
structure wasm_memorytype_t where
  limits : wasm_limits_t
deriving DecidableEq, Repr

/-- The `wasm_functype_new` function: `new wasm_functype_t(params, results)`;
the constructor swaps `*params` and `*results` into the members, so it
dereferences both vector pointers — null for either one is undefined
behavior.  The caller vectors are left holding the indeterminate initial
member values and are not modelled further. -/
def wasm_functype_new (params results : Option (Vec (Option wasm_valtype_t))) :
    CResult wasm_functype_t :=
  match params, results with
  | some p, some r => .ok ⟨p, r⟩
  | _, _ => .ub

/-- The `wasm_functype_params` accessor: null receiver yields null,
otherwise a borrowed pointer to the `params` member. -/
def wasm_functype_params (ft : Option wasm_functype_t) :
    Option (Vec (Option wasm_valtype_t)) :=
  match ft with
  | none => none
  | some f => some f.params

/-- The `wasm_functype_results` accessor. -/
def wasm_functype_results (ft : Option wasm_functype_t) :
    Option (Vec (Option wasm_valtype_t)) :=
  match ft with
  | none => none
  | some f => some f.results

/-- The `wasm_globaltype_new` function: `new wasm_globaltype_t(valtype,
mutability)`; the constructor initializes `content(vt)`, which reads
`vt->kind` — a null `valtype` is dereferenced with no prior check
(undefined behavior) — and then frees the taken valtype with
`wasm_valtype_delete(vt)`. -/
def wasm_globaltype_new (vt : Option wasm_valtype_t) (mutability : Nat) :
    CResult wasm_globaltype_t :=
  match vt with
  | none => .ub
  | some v => .ok ⟨⟨v.kind⟩, mutability⟩

/-- The `wasm_globaltype_content` accessor: null receiver yields null,
otherwise a borrowed pointer to the inline content valtype. -/
def wasm_globaltype_content (gt : Option wasm_globaltype_t) :
    Option wasm_valtype_t :=
  match gt with
  | none => none
  | some g => some g.content

/-- The `wasm_globaltype_mutability` accessor: a null receiver yields the
documented default `WASM_CONST`. -/
def wasm_globaltype_mutability (gt : Option wasm_globaltype_t) : Nat :=
  match gt with
  | none => WASM_CONST
  | some g => g.mutability

/-- The `wasm_tabletype_new` function: the constructor initializes
`valtype(vt)` (reads `vt->kind`) and `limits(*lim)` — a null `valtype` or a
null `limits` is dereferenced with no prior check (undefined behavior) —
and frees the taken valtype. -/
def wasm_tabletype_new (vt : Option wasm_valtype_t)
    (lim : Option wasm_limits_t) : CResult wasm_tabletype_t :=
  match vt, lim with
  | some v, some l => .ok ⟨⟨v.kind⟩, l⟩
  | _, _ => .ub

/-- The `wasm_memorytype_new` function: the constructor initializes
`limits(*lim)` — a null `limits` is dereferenced with no prior check
(undefined behavior). -/
def wasm_memorytype_new (lim : Option wasm_limits_t) :
    CResult wasm_memorytype_t :=
  match lim with
  | none => .ub
  | some l => .ok ⟨l⟩

/-- Payload of one concrete `wasm_externtype_t` variant. -/
inductive ExternPayload where
  | func : Vec (Option wasm_valtype_t) → Vec (Option wasm_valtype_t) → ExternPayload
  | global : wasm_valtype_t → Nat → ExternPayload
  | table : wasm_valtype_t → wasm_limits_t → ExternPayload
  | memory : wasm_limits_t → ExternPayload
deriving DecidableEq, Repr

/-- The `wasm_externtype_t` object: the `kind` discriminant stored as the
first (base) field, plus the variant payload of the concrete subtype the
object was created as.  The `kind` field is an arbitrary `Nat` because the
dispatch claims are about discriminant values outside the closed
enumeration. -/
structure wasm_externtype_t where
  kind : Nat
  payload : ExternPayload
deriving DecidableEq, Repr

/-- Value of a fresh deep copy of a valtype vector, as produced by
`wasm_valtype_vec_copy` into a newly allocated vector struct (the pointer
flavor: `out->data = nullptr` first, then per-element `wasm_valtype_copy`
when the source size is positive). -/
def wasm_valtype_vec_copied (p : Vec (Option wasm_valtype_t)) :
    Vec (Option wasm_valtype_t) :=
  ⟨p.size,
    if p.size > 0 then some (((p.data.getD []).take p.size).map wasm_valtype_copy)
    else none⟩

/-- The member function `wasm_externtype_t::copy`: a switch on the stored
`kind`.  Each of the four enumerated cases downcasts `this` to the matching
variant and runs that variant copy constructor (`wasm_functype_t` deep
copies both vectors; the other three copy their inline members); running a
case whose payload is not actually of that variant would reinterpret the
object as the wrong type (undefined behavior), and the `default` case is
`__builtin_unreachable()` — both are `.ub`. -/
def wasm_externtype_copy (et : wasm_externtype_t) : CResult wasm_externtype_t :=
  if et.kind = WASM_EXTERN_FUNC then
    match et.payload with
    | .func p r =>
        .ok ⟨WASM_EXTERN_FUNC, .func (wasm_valtype_vec_copied p) (wasm_valtype_vec_copied r)⟩
    | _ => .ub
  else if et.kind = WASM_EXTERN_GLOBAL then
    match et.payload with
    | .global c m => .ok ⟨WASM_EXTERN_GLOBAL, .global ⟨c.kind⟩ m⟩
    | _ => .ub
  else if et.kind = WASM_EXTERN_TABLE then
    match et.payload with
    | .table v l => .ok ⟨WASM_EXTERN_TABLE, .table ⟨v.kind⟩ l⟩
    | _ => .ub
  else if et.kind = WASM_EXTERN_MEMORY then
    match et.payload with
    | .memory l => .ok ⟨WASM_EXTERN_MEMORY, .memory l⟩
    | _ => .ub
  else .ub

/-- The member function `wasm_externtype_t::destroy`: a switch on the
stored `kind`, deleting the object through the matching variant pointer in
each of the four enumerated cases; the `default` case is
`__builtin_unreachable()` (`.ub`). -/
def wasm_externtype_destroy (et : wasm_externtype_t) : CResult Unit :=
  if et.kind = WASM_EXTERN_FUNC ∨ et.kind = WASM_EXTERN_GLOBAL ∨
      et.kind = WASM_EXTERN_TABLE ∨ et.kind = WASM_EXTERN_MEMORY then .ok ()
  else .ub

/-- The `wasm_externtype_kind` accessor: a null receiver yields the
documented default `WASM_EXTERN_FUNC`. -/
def wasm_externtype_kind (et : Option wasm_externtype_t) : Nat :=
  match et with
  | none => WASM_EXTERN_FUNC
  | some e => e.kind

/-- The `wasm_functype_as_externtype` cast: `return functype;` — the
derived-to-base conversion of a pointer whose discriminant is the shared
first field, address preserving (no vtable, single non-virtual base), so it
is the identity on the address. -/
def wasm_functype_as_externtype (p : Option Ptr) : Option Ptr := p

/-- The `wasm_globaltype_as_externtype` cast (identity on the address). -/
def wasm_globaltype_as_externtype (p : Option Ptr) : Option Ptr := p

/-- The `wasm_tabletype_as_externtype` cast (identity on the address). -/
def wasm_tabletype_as_externtype (p : Option Ptr) : Option Ptr := p

/-- The `wasm_memorytype_as_externtype` cast (identity on the address). -/
def wasm_memorytype_as_externtype (p : Option Ptr) : Option Ptr := p

/-- The `wasm_externtype_as_functype` cast: `static_cast<wasm_functype_t *>`,
a base-to-derived pointer conversion, likewise address preserving. -/
def wasm_externtype_as_functype (p : Option Ptr) : Option Ptr := p

/-- The `wasm_externtype_as_globaltype` cast (identity on the address). -/
def wasm_externtype_as_globaltype (p : Option Ptr) : Option Ptr := p

/-- The `wasm_externtype_as_tabletype` cast (identity on the address). -/
def wasm_externtype_as_tabletype (p : Option Ptr) : Option Ptr := p

/-- The `wasm_externtype_as_memorytype` cast (identity on the address). -/
def wasm_externtype_as_memorytype (p : Option Ptr) : Option Ptr := p

/-- The `wasm_functype_as_externtype_const` cast (identity on the address). -/
def wasm_functype_as_externtype_const (p : Option Ptr) : Option Ptr := p

/-- The `wasm_globaltype_as_externtype_const` cast (identity on the address). -/
def wasm_globaltype_as_externtype_const (p : Option Ptr) : Option Ptr := p

/-- The `wasm_tabletype_as_externtype_const` cast (identity on the address). -/
def wasm_tabletype_as_externtype_const (p : Option Ptr) : Option Ptr := p

/-- The `wasm_memorytype_as_externtype_const` cast (identity on the address). -/
def wasm_memorytype_as_externtype_const (p : Option Ptr) : Option Ptr := p

/-- The `wasm_externtype_as_functype_const` cast (identity on the address). -/
def wasm_externtype_as_functype_const (p : Option Ptr) : Option Ptr := p

/-- The `wasm_externtype_as_globaltype_const` cast (identity on the address). -/
def wasm_externtype_as_globaltype_const (p : Option Ptr) : Option Ptr := p

/-- The `wasm_externtype_as_tabletype_const` cast (identity on the address). -/
def wasm_externtype_as_tabletype_const (p : Option Ptr) : Option Ptr := p

/-- The `wasm_externtype_as_memorytype_const` cast (identity on the address). -/
def wasm_externtype_as_memorytype_const (p : Option Ptr) : Option Ptr := p

/-- The `wasm_ref_t` struct: an opaque handle carrying the embedder data
pointer `host_info` and the `finalizer` callback pointer (a function
pointer, modelled by its address). -/
structure wasm_ref_t where
  host_info : Option Ptr
  finalizer : Option Ptr
deriving DecidableEq, Repr

/-- The member function `wasm_ref_t::same`: `lhs && lhs->host_info ==
host_info && lhs->finalizer == finalizer`, where the receiver is the first
argument of `wasm_ref_same`. -/
def wasm_ref_t_same (self : wasm_ref_t) (lhs : Option wasm_ref_t) : Bool :=
  match lhs with
  | none => false
  | some l => l.host_info == self.host_info && l.finalizer == self.finalizer

/-- The `wasm_ref_same` function from `WASM_DECLARE_REF_BASE_IMPL`:
`inst1 && inst1->same(inst2)`. -/
def wasm_ref_same (inst1 inst2 : Option wasm_ref_t) : Bool :=
  match inst1 with
  | none => false
  | some r => wasm_ref_t_same r inst2

/-- State of the reference layer: the live `wasm_ref_t` objects by address,
the finalizer callbacks that have been invoked so far, and the
embedder-owned host data cells (which the Ref layer never owns). -/
structure RefState where
  refs : List (Ptr × wasm_ref_t)
  invoked : List Ptr
  host_cells : List (Ptr × Nat)
deriving DecidableEq, Repr

/-- Address not yet used by any live ref, for modelling `new`. -/
def RefState.fresh (s : RefState) : Ptr :=
  (s.refs.map Prod.fst).foldr max 0 + 1

/-- The `wasm_ref_delete` function: `if (obj) obj->destroy()` where
`destroy` is `delete this` and the destructor body `~wasm_ref_t() {}` is
empty.  Deleting null is a no-op; deleting a live ref removes exactly that
object — no call to the recorded finalizer is made and the embedder host
cells are untouched; deleting a dangling address is undefined behavior. -/
def wasm_ref_delete (s : RefState) (p : Option Ptr) : CResult RefState :=
  match p with
  | none => .ok s
  | some a =>
      match s.refs.lookup a with
      | some _ => .ok { s with refs := s.refs.filter (fun e => e.1 != a) }
      | none => .ub

/-- The `wasm_ref_copy` function: null in, null out; otherwise
`new wasm_ref_t(this)` — a fresh ref whose copy constructor duplicates
`host_info` and `finalizer`; copying a dangling address is undefined
behavior. -/
def wasm_ref_copy (s : RefState) (p : Option Ptr) :
    CResult (RefState × Option Ptr) :=
  match p with
  | none => .ok (s, none)
  | some a =>
      match s.refs.lookup a with
      | some r =>
          .ok ({ s with refs := (s.fresh, ⟨r.host_info, r.finalizer⟩) :: s.refs },
            some s.fresh)
      | none => .ub

/-- Contents of the `wasm_val_t` union member `of`: either a numeric bit
pattern (the `i32/i64/f32/f64` members, as written or copied wholesale) or
the `ref` member. -/
inductive ValOf where
  | bits : Int → ValOf
  | ref : Option Ptr → ValOf
deriving DecidableEq, Repr

/-- The `wasm_val_t` struct: a kind tag plus the union payload. -/
structure wasm_val_t where
  kind : Nat
  of : ValOf
deriving DecidableEq, Repr

/-- The `wasm_val_delete` function: null is a no-op.  The switch places the
`default:` label together with the four numeric cases, so every kind other
than `WASM_ANYREF`/`WASM_FUNCREF` — including a kind outside the closed
enumeration — just zeroes the payload (`(val->of).i64 = 0`).  The two
reference kinds run `wasm_ref_delete((val->of).ref)` and null the member;
reading the `ref` member when the union last held a numeric value is
modelled as undefined behavior (never exercised by the theorems). -/
def wasm_val_delete (s : RefState) (val : Option wasm_val_t) :
    CResult (RefState × Option wasm_val_t) :=
  match val with
  | none => .ok (s, none)
  | some v =>
      if v.kind = WASM_ANYREF ∨ v.kind = WASM_FUNCREF then
        match v.of with
        | .ref r =>
            match wasm_ref_delete s r with
            | .ok s2 => .ok (s2, some ⟨v.kind, .ref none⟩)
            | .ub => .ub
        | .bits _ => .ub
      else .ok (s, some ⟨v.kind, .bits 0⟩)

/-- The `wasm_val_copy` function: guarded by `if (out && val)` (otherwise a
no-op on `*out`); copies the kind, then the switch places `default:` with
the numeric cases, so every kind other than the two reference kinds copies
the union wholesale (`out->of = val->of`); the reference kinds set
`(out->of).ref = wasm_ref_copy((val->of).ref)`. -/
def wasm_val_copy (s : RefState) (out val : Option wasm_val_t) :
    CResult (RefState × Option wasm_val_t) :=
  match out, val with
  | some _, some v =>
      if v.kind = WASM_ANYREF ∨ v.kind = WASM_FUNCREF then
        match v.of with
        | .ref r =>
            match wasm_ref_copy s r with
            | .ok (s2, p) => .ok (s2, some ⟨v.kind, .ref p⟩)
            | .ub => .ub
        | .bits _ => .ub
      else .ok (s, some ⟨v.kind, v.of⟩)
  | o, _ => .ok (s, o)

/-- C1 counterexample: the claim says the four constructors are well-defined
when their config/valtype/limits argument is null, but each of
`wasm_engine_new_with_config`, `wasm_globaltype_new`, `wasm_tabletype_new`
and `wasm_memorytype_new` dereferences that argument with no null check, so
a null argument is undefined behavior. -/
theorem c1_null_constructor_counterexample :
    wasm_engine_new_with_config none = CResult.ub ∧
    wasm_globaltype_new none WASM_CONST = CResult.ub ∧
    wasm_tabletype_new none (some ⟨10, 20⟩) = CResult.ub ∧
    wasm_tabletype_new (wasm_valtype_new WASM_FUNCREF) none = CResult.ub ∧
    wasm_memorytype_new none = CResult.ub :=
  ⟨rfl, rfl, rfl, rfl, rfl⟩

/-- C1 amended: destructive operations treat a null argument as a no-op and
query operations return their documented default, but the constructors
`wasm_engine_new_with_config`, `wasm_globaltype_new`, `wasm_tabletype_new`
and `wasm_memorytype_new` dereference their config/valtype/limits argument
without a null check, so passing null there is undefined behavior. -/
theorem c1_null_tolerance_amended :
    (∀ m, wasm_globaltype_new none m = CResult.ub) ∧
    wasm_engine_new_with_config none = CResult.ub ∧
    (∀ lim, wasm_tabletype_new none lim = CResult.ub) ∧
    (∀ vt, wasm_tabletype_new vt none = CResult.ub) ∧
    wasm_memorytype_new none = CResult.ub ∧
    (∀ c, wasm_engine_new_with_config (some c) = CResult.ok ⟨c.conf⟩) ∧
    (∀ h, wasm_own_delete h none = some h) ∧
    (∀ s, wasm_ref_delete s none = CResult.ok s) ∧
    (∀ s, wasm_val_delete s none = CResult.ok (s, none)) ∧
    (∀ s o, wasm_val_copy s o none = CResult.ok (s, o)) ∧
    wasm_valtype_kind none = WASM_I32 ∧
    wasm_globaltype_mutability none = WASM_CONST ∧
    wasm_externtype_kind none = WASM_EXTERN_FUNC ∧
    wasm_functype_params none = none ∧
    wasm_functype_results none = none ∧
    wasm_globaltype_content none = none ∧
    (∀ n vals, wasm_valtype_vec_new none n vals = (none, vals)) ∧
    (∀ i, wasm_valtype_vec_copy none i = none) ∧
    (∀ o, wasm_byte_vec_copy (some o) none = some o) ∧
    wasm_valtype_vec_delete none = none := by
  refine ⟨fun m => rfl, rfl, fun lim => ?_, fun vt => ?_, rfl, fun c => rfl,
    fun h => rfl, fun s => rfl, fun s => rfl, fun s o => ?_, rfl, rfl, rfl,
    rfl, rfl, rfl, fun n vals => rfl, fun i => ?_, fun o => rfl, rfl⟩
  · cases lim <;> rfl
  · cases vt <;> rfl
  · cases o <;> rfl
  · cases i <;> rfl

/-- C2 counterexample: the claim says that after `wasm_valtype_vec_new(out,
1, vals)` the source slot `vals[0]` is left cleared (null); in fact the
copy from `vals` leaves the caller array unchanged, so the slot still holds
the original non-null pointer. -/
theorem c2_source_slots_counterexample :
    (wasm_valtype_vec_new (some ⟨0, none⟩) 1 [wasm_valtype_new WASM_I32]).2 =
      [some ⟨WASM_I32⟩] ∧
    (wasm_valtype_vec_new (some ⟨0, none⟩) 1 [wasm_valtype_new WASM_I32]).2 ≠
      [none] := by
  exact ⟨rfl, by decide⟩

/-- C2 amended: `wasm_<name>_vec_new(out, n, vals)` copies the `n` supplied
element pointers into the new vector, but the caller source slots are left
unchanged (still holding the original pointers) — the parameter is an array
of const pointers and `std::make_move_iterator` degenerates to a plain
copy, so the ownership transfer is by convention only, not observable
through cleared slots. -/
theorem c2_vec_new_amended (out0 : Vec (Option wasm_valtype_t)) (n : Nat)
    (vals : List (Option wasm_valtype_t)) (hn : 0 < n) :
    (wasm_valtype_vec_new (some out0) n vals).2 = vals ∧
    (wasm_valtype_vec_new (some out0) n vals).1 = some ⟨n, some (vals.take n)⟩ := by
  unfold wasm_valtype_vec_new vec_new
  simp [hn]

/-- C2 amended witness at a concrete input. -/
theorem c2_vec_new_amended_witness :
    (wasm_valtype_vec_new (some ⟨0, none⟩) 1 [some ⟨0⟩]).2 = [some ⟨0⟩] ∧
    (wasm_valtype_vec_new (some ⟨0, none⟩) 1 [some ⟨0⟩]).1 =
      some ⟨1, some ([some (⟨0⟩ : wasm_valtype_t)].take 1)⟩ :=
  c2_vec_new_amended ⟨0, none⟩ 1 [some ⟨0⟩] (by decide)

/-- C3 code bug, evaluated at the failing input: the scalar
`wasm_byte_vec_copy` from an empty source sets `out->size = 0` but never
assigns `out->data` (the `out->data = nullptr;` line present in the pointer
flavor is missing from the scalar flavor), so a stale non-null `data`
survives and the empty-vector invariant (size 0 and null data) is violated;
the pointer flavor `wasm_valtype_vec_copy` does establish it. -/
theorem c3_scalar_copy_empty_stale_data :
    wasm_byte_vec_copy (some ⟨3, some [1, 2, 3]⟩) (some ⟨0, none⟩) =
      some ⟨0, some [1, 2, 3]⟩ ∧
    wasm_byte_vec_copy (some ⟨3, some [1, 2, 3]⟩) (some ⟨0, none⟩) ≠
      some ⟨0, none⟩ ∧
    wasm_valtype_vec_copy
      (some ⟨3, some [wasm_valtype_new 0, wasm_valtype_new 1, wasm_valtype_new 2]⟩)
      (some ⟨0, none⟩) = some ⟨0, none⟩ := by
  exact ⟨rfl, by decide, rfl⟩

/-- C4: `wasm_ref_delete` on a live Ref carrying any host_info and any
non-null finalizer releases exactly that Ref object: the recorded finalizer
is never invoked and the embedder-owned host data cells are untouched. -/
theorem c4_ref_delete_frame (s : RefState) (a : Ptr) (r : wasm_ref_t)
    (hlive : s.refs.lookup a = some r) (_hfin : r.finalizer ≠ none) :
    ∃ s2, wasm_ref_delete s (some a) = CResult.ok s2 ∧
      s2.invoked = s.invoked ∧
      s2.host_cells = s.host_cells ∧
      s2.refs = s.refs.filter (fun e => e.1 != a) := by
  refine ⟨{ s with refs := s.refs.filter (fun e => e.1 != a) }, ?_, rfl, rfl, rfl⟩
  simp only [wasm_ref_delete, hlive]

/-- C4 witness at a concrete state holding one Ref with host_info and a
non-null finalizer. -/
theorem c4_ref_delete_frame_witness :
    ∃ s2, wasm_ref_delete ⟨[(1, ⟨some 7, some 9⟩)], [], [(7, 42)]⟩ (some 1) =
        CResult.ok s2 ∧
      s2.invoked = ([] : List Ptr) ∧
      s2.host_cells = [(7, 42)] ∧
      s2.refs = ([(1, ⟨some 7, some 9⟩)] : List (Ptr × wasm_ref_t)).filter
        (fun e => e.1 != 1) :=
  c4_ref_delete_frame ⟨[(1, ⟨some 7, some 9⟩)], [], [(7, 42)]⟩ 1 ⟨some 7, some 9⟩
    (by decide) (by decide)

/-- C5 counterexample: the claim says `destroy(x); destroy(x)` is a no-op
the second time for every destroyable type; for a heap handle (here one
produced by `WASM_DECLARE_OWN_IMPL`, address 5 live) the first delete frees
it and the second delete of the same pointer is a double free — undefined
behavior, not a no-op. -/
theorem c5_double_delete_counterexample :
    wasm_own_delete ⟨[5]⟩ (some 5) = some ⟨[]⟩ ∧
    wasm_own_delete ⟨[]⟩ (some 5) = none := by
  decide

/-- C5 amended: `destroy(null)` is a no-op for every destroyable type, and
for vectors repeated delete is safe because delete resets size to 0 and
data to null; but for heap-allocated handles a second `destroy` on the same
non-null pointer is a double free (undefined behavior). -/
theorem c5_destroy_amended (h : Heap) (a : Ptr) (ha : a ∈ h.live)
    (v : Option (Vec Nat)) :
    wasm_own_delete h none = some h ∧
    wasm_byte_vec_delete none = none ∧
    wasm_byte_vec_delete (wasm_byte_vec_delete v) = wasm_byte_vec_delete v ∧
    wasm_own_delete h (some a) = some ⟨h.live.filter (fun x => x != a)⟩ ∧
    wasm_own_delete ⟨h.live.filter (fun x => x != a)⟩ (some a) = none := by
  refine ⟨rfl, rfl, ?_, ?_, ?_⟩
  · cases v <;> rfl
  · simp only [wasm_own_delete]
    rw [if_pos ha]
  · simp only [wasm_own_delete]
    rw [if_neg]
    simp [List.mem_filter]

/-- C5 amended witness at a concrete heap and vector. -/
theorem c5_destroy_amended_witness :
    wasm_own_delete ⟨[5]⟩ none = some ⟨[5]⟩ ∧
    wasm_byte_vec_delete none = none ∧
    wasm_byte_vec_delete (wasm_byte_vec_delete (some ⟨2, some [7, 8]⟩)) =
      wasm_byte_vec_delete (some ⟨2, some [7, 8]⟩) ∧
    wasm_own_delete ⟨[5]⟩ (some 5) = some ⟨([5] : List Ptr).filter (fun x => x != 5)⟩ ∧
    wasm_own_delete ⟨([5] : List Ptr).filter (fun x => x != 5)⟩ (some 5) = none :=
  c5_destroy_amended ⟨[5]⟩ 5 (by decide) (some ⟨2, some [7, 8]⟩)

/-- C6 counterexample: the claim says `wasm_val_delete`/`wasm_val_copy`
treat a kind outside the six ValueKinds as a fatal programmer error; in
fact the switch places `default:` together with the numeric cases, so at
the invalid kind 77 both functions return normally (delete zeroes the
payload, copy copies it) instead of faulting. -/
theorem c6_val_dispatch_counterexample :
    wasm_val_delete ⟨[], [], []⟩ (some ⟨77, ValOf.bits 5⟩) =
      CResult.ok (⟨[], [], []⟩, some ⟨77, ValOf.bits 0⟩) ∧
    wasm_val_copy ⟨[], [], []⟩ (some ⟨0, ValOf.bits 0⟩) (some ⟨77, ValOf.bits 5⟩) =
      CResult.ok (⟨[], [], []⟩, some ⟨77, ValOf.bits 5⟩) := by
  decide

/-- C6 amended: an ExternType whose kind is outside {FUNC, GLOBAL, TABLE,
MEMORY} makes `wasm_externtype_t::copy` and `wasm_externtype_t::destroy`
hit the `__builtin_unreachable()` default (fatal, non-recoverable); but a
Value whose kind is outside the six ValueKinds is routed by
`wasm_val_delete`/`wasm_val_copy` through the shared numeric/default branch
and handled gracefully (payload zeroed on delete, copied on copy). -/
theorem c6_invalid_discriminant_amended (et : wasm_externtype_t)
    (s : RefState) (o : wasm_val_t) (k : Nat) (b : Int)
    (h0 : et.kind ≠ WASM_EXTERN_FUNC) (h1 : et.kind ≠ WASM_EXTERN_GLOBAL)
    (h2 : et.kind ≠ WASM_EXTERN_TABLE) (h3 : et.kind ≠ WASM_EXTERN_MEMORY)
    (hv0 : k ≠ WASM_ANYREF) (hv1 : k ≠ WASM_FUNCREF) :
    wasm_externtype_copy et = CResult.ub ∧
    wasm_externtype_destroy et = CResult.ub ∧
    wasm_val_delete s (some ⟨k, ValOf.bits b⟩) =
      CResult.ok (s, some ⟨k, ValOf.bits 0⟩) ∧
    wasm_val_copy s (some o) (some ⟨k, ValOf.bits b⟩) =
      CResult.ok (s, some ⟨k, ValOf.bits b⟩) := by
  refine ⟨?_, ?_, ?_, ?_⟩
  · unfold wasm_externtype_copy
    rw [if_neg h0, if_neg h1, if_neg h2, if_neg h3]
  · unfold wasm_externtype_destroy
    rw [if_neg (by tauto)]
  · simp only [wasm_val_delete]
    rw [if_neg (by tauto)]
  · simp only [wasm_val_copy]
    rw [if_neg (by tauto)]

/-- C6 amended witness at the invalid discriminants 9 (extern kind) and 77
(value kind). -/
theorem c6_invalid_discriminant_amended_witness :
    wasm_externtype_copy ⟨9, ExternPayload.memory ⟨0, 0⟩⟩ = CResult.ub ∧
    wasm_externtype_destroy ⟨9, ExternPayload.memory ⟨0, 0⟩⟩ = CResult.ub ∧
    wasm_val_delete ⟨[], [], []⟩ (some ⟨77, ValOf.bits 5⟩) =
      CResult.ok (⟨[], [], []⟩, some ⟨77, ValOf.bits 0⟩) ∧
    wasm_val_copy ⟨[], [], []⟩ (some ⟨0, ValOf.bits 0⟩) (some ⟨77, ValOf.bits 5⟩) =
      CResult.ok (⟨[], [], []⟩, some ⟨77, ValOf.bits 5⟩) :=
  c6_invalid_discriminant_amended ⟨9, ExternPayload.memory ⟨0, 0⟩⟩ ⟨[], [], []⟩
    ⟨0, ValOf.bits 0⟩ 77 5 (by decide) (by decide) (by decide) (by decide)
    (by decide) (by decide)

/-- C7: for each ExternType variant, the upcast to `wasm_externtype_t *`
followed by the matching downcast returns the original pointer, in both the
mutable and the const form; every cast is a pointer reinterpretation
(identity on the address, no allocation). -/
theorem c7_cast_identity_roundtrip (p : Option Ptr) :
    wasm_externtype_as_functype (wasm_functype_as_externtype p) = p ∧
    wasm_externtype_as_globaltype (wasm_globaltype_as_externtype p) = p ∧
    wasm_externtype_as_tabletype (wasm_tabletype_as_externtype p) = p ∧
    wasm_externtype_as_memorytype (wasm_memorytype_as_externtype p) = p ∧
    wasm_externtype_as_functype_const (wasm_functype_as_externtype_const p) = p ∧
    wasm_externtype_as_globaltype_const (wasm_globaltype_as_externtype_const p) = p ∧
    wasm_externtype_as_tabletype_const (wasm_tabletype_as_externtype_const p) = p ∧
    wasm_externtype_as_memorytype_const (wasm_memorytype_as_externtype_const p) = p :=
  ⟨rfl, rfl, rfl, rfl, rfl, rfl, rfl, rfl⟩

/-- C8: `wasm_ref_same(a, b)` is true exactly when both arguments are
non-null and the two Refs carry pointer-equal `host_info` and
pointer-equal `finalizer`; it is false whenever either argument is null. -/
theorem c8_ref_same_iff (a b : Option wasm_ref_t) :
    wasm_ref_same a b = true ↔
      ∃ ra rb, a = some ra ∧ b = some rb ∧
        ra.host_info = rb.host_info ∧ ra.finalizer = rb.finalizer := by
  cases a with
  | none => simp [wasm_ref_same]
  | some ra =>
    cases b with
    | none => simp [wasm_ref_same, wasm_ref_t_same]
    | some rb =>
      simp only [wasm_ref_same, wasm_ref_t_same, Bool.and_eq_true, beq_iff_eq,
        Option.some.injEq]
      constructor
      · rintro ⟨hh, hf⟩
        exact ⟨ra, rb, rfl, rfl, hh.symm, hf.symm⟩
      · rintro ⟨ra1, rb1, h1, h2, hh, hf⟩
        subst h1
        subst h2
        exact ⟨hh.symm, hf.symm⟩

/-- C9: the FuncType built from params [I32, I64] and results [F32] through
the public constructors reports params of size 2 with kinds [I32, I64] in
order and results of size 1 with kind [F32]; two GlobalTypes built over
(I64, VAR) and (F32, CONST) report exactly the constructed mutability and
content kind, independently per object. -/
theorem c9_construction_reports_arguments :
    (∃ ft, wasm_functype_new
        (wasm_valtype_vec_new (some ⟨0, none⟩) 2
          [wasm_valtype_new WASM_I32, wasm_valtype_new WASM_I64]).1
        (wasm_valtype_vec_new (some ⟨0, none⟩) 1 [wasm_valtype_new WASM_F32]).1 =
        CResult.ok ft ∧
      (wasm_functype_params (some ft)).map Vec.size = some 2 ∧
      (wasm_functype_params (some ft)).map
        (fun v => (v.data.getD []).map (fun e => wasm_valtype_kind e)) =
        some [WASM_I32, WASM_I64] ∧
      (wasm_functype_results (some ft)).map Vec.size = some 1 ∧
      (wasm_functype_results (some ft)).map
        (fun v => (v.data.getD []).map (fun e => wasm_valtype_kind e)) =
        some [WASM_F32]) ∧
    (∃ g1 g2, wasm_globaltype_new (wasm_valtype_new WASM_I64) WASM_VAR =
        CResult.ok g1 ∧
      wasm_globaltype_new (wasm_valtype_new WASM_F32) WASM_CONST =
        CResult.ok g2 ∧
      wasm_globaltype_mutability (some g1) = WASM_VAR ∧
      wasm_valtype_kind (wasm_globaltype_content (some g1)) = WASM_I64 ∧
      wasm_globaltype_mutability (some g2) = WASM_CONST ∧
      wasm_valtype_kind (wasm_globaltype_content (some g2)) = WASM_F32) := by
  refine ⟨⟨⟨⟨2, some [some ⟨WASM_I32⟩, some ⟨WASM_I64⟩]⟩,
      ⟨1, some [some ⟨WASM_F32⟩]⟩⟩, ?_, ?_, ?_, ?_, ?_⟩,
    ⟨⟨⟨WASM_I64⟩, WASM_VAR⟩, ⟨⟨WASM_F32⟩, WASM_CONST⟩, rfl, rfl, rfl, rfl, rfl, rfl⟩⟩ <;>
    decide

/-- C10: `wasm_store_new(null)` returns null with no side effects on the
engine heap, and `wasm_store_new(engine)` for a live engine returns a new
Store recording the engine by non-owning reference, again leaving the
engine heap unchanged. -/
theorem c10_store_new_engine (h : Heap) (e : Ptr) (he : e ∈ h.live) :
    wasm_store_new h none = CResult.ok (h, none) ∧
    wasm_store_new h (some e) = CResult.ok (h, some ⟨e⟩) := by
  refine ⟨rfl, ?_⟩
  simp only [wasm_store_new]
  rw [if_pos he]

/-- C10 witness at a one-engine heap. -/
theorem c10_store_new_engine_witness :
    wasm_store_new ⟨[2]⟩ none = CResult.ok (⟨[2]⟩, none) ∧
    wasm_store_new ⟨[2]⟩ (some 2) = CResult.ok (⟨[2]⟩, some ⟨2⟩) :=
  c10_store_new_engine ⟨[2]⟩ 2 (by decide)

end WasmC
